import Mathlib

/-!
Verification development for the `mcp-semantic-navigator` server
(`server.py`): a shallow embedding of its file scanner, path-heuristic
clustering, presenters and JSON-RPC dispatch, with theorems about the
behaviours the design document promises.

Modelling conventions:
* Python strings are Lean `String`s; the string primitives the code uses
  (`lower`, `startswith`, `endswith`, `in`, `split`, `capitalize`) are
  re-implemented over `List Char` so that they compute by `decide`/`rfl`.
  ASCII suffices for every constant the code compares against.
* Paths are POSIX relative paths; `pathlib.PurePath.parts` is modelled by
  splitting on `'/'` and dropping empty and `"."` components, which is
  exactly pathlib's normalisation for such paths.
* The filesystem is a map from a root-path string to the recursive file
  listing `Path(root).rglob` would traverse; `none` models a root that
  does not exist or is not a directory, for which pathlib's glob yields
  no entries (its selector returns an empty iterator without raising).
* Python exceptions are `Except String`; the raising sites the dispatch
  can actually hit (`.get` on a non-dict, `Path()` on a non-string) are
  modelled faithfully, and the `try/except` of `handle_request` becomes
  explicit `Except` handling.
-/

namespace SemanticNavigator

/-! ### Python string primitives -/

/-- Boolean list-prefix test over characters (`str.startswith` at a fixed
    position); total and structurally recursive so it computes. -/
def listIsPrefixOfB : List Char → List Char → Bool
  | [], _ => true
  | _ :: _, [] => false
  | a :: as, b :: bs => a == b && listIsPrefixOfB as bs

/-- Does `pat` occur as a contiguous run somewhere in the list? -/
def subOccurs (pat : List Char) : List Char → Bool
  | [] => listIsPrefixOfB pat []
  | c :: rest => listIsPrefixOfB pat (c :: rest) || subOccurs pat rest

/-- Python's `pat in s` substring test. -/
def strContainsSub (s pat : String) : Bool := subOccurs pat.data s.data

/-- Python's `s.endswith(suffix)`. -/
def strEndsWith (s suffix : String) : Bool :=
  listIsPrefixOfB suffix.data.reverse s.data.reverse

/-- Python's `s.startswith('.')`, the only `startswith` the code uses. -/
def startsWithDot (s : String) : Bool :=
  match s.data with
  | '.' :: _ => true
  | _ => false

/-- Python's `s.lower()` (ASCII range, which covers every constant the
    clustering rules compare against). -/
def pyLower (s : String) : String := String.mk (s.data.map Char.toLower)

/-- Python's `s.capitalize()`: first character upper-cased, the rest
    lower-cased. -/
def pyCapitalize (s : String) : String :=
  match s.data with
  | [] => ""
  | c :: rest => String.mk (c.toUpper :: rest.map Char.toLower)

/-- Split a character list on a separator, keeping empty chunks, as
    Python's `str.split(sep)` does. -/
def charSplit (sep : Char) : List Char → List (List Char)
  | [] => [[]]
  | c :: rest =>
    match charSplit sep rest with
    | [] => if c == sep then [[], []] else [[c]]
    | g :: gs => if c == sep then [] :: g :: gs else (c :: g) :: gs

/-- `pathlib.PurePath(s).parts` for a POSIX relative path: split on `'/'`
    and drop the empty components and the `"."` components that pathlib
    normalises away (`".."` components are kept, as pathlib keeps them). -/
def pyPathParts (s : String) : List String :=
  ((charSplit '/' s.data).map String.mk).filter fun p => p != "" && p != "."

/-- Join parts back into a path string, as `str(PurePath(...))` renders a
    relative path. -/
def joinParts (ps : List String) : String := String.intercalate "/" ps

/-! ### FileScanner (`scan_code_files`, `server.py` lines 17-44) -/

/-- The default extension list of `scan_code_files`. -/
def defaultExtensions : List String :=
  [".ts", ".tsx", ".js", ".jsx", ".py", ".java", ".go", ".rs"]

/-- The fixed denylist of `server.py` line 28. -/
def denylist : List String := ["node_modules", "dist", "build", "__pycache__"]

/-- One path component triggers exclusion when it is hidden (leading dot)
    or denylisted (`server.py` lines 28-29). -/
def excludedPart (p : String) : Bool := startsWithDot p || denylist.contains p

/-- The record built for each retained file (`server.py` lines 34-40). -/
structure FileRecord where
  path : String
  full_path : String
  content : String
  size : Nat
  extension : String
deriving DecidableEq

instance : DecidableEq (Except String String) := fun x y =>
  match x, y with
  | .ok a, .ok b =>
      if h : a = b then .isTrue (h ▸ rfl)
      else .isFalse fun hc => h (Except.ok.inj hc)
  | .ok _, .error _ => .isFalse fun hc => Except.noConfusion hc
  | .error _, .ok _ => .isFalse fun hc => Except.noConfusion hc
  | .error a, .error b =>
      if h : a = b then .isTrue (h ▸ rfl)
      else .isFalse fun hc => h (Except.error.inj hc)

/-- One file of the recursive listing under a scan root: its path
    components relative to the root and the outcome `read_text` would
    have (`Except.error` models an `OSError` such as permission denied;
    decoding never fails because the code passes `errors='ignore'`). -/
structure FSEntry where
  relParts : List String
  readResult : Except String String
deriving DecidableEq

/-- The filesystem seen through `Path(root).rglob`: `none` when `root`
    does not exist or is not a directory (pathlib then yields nothing). -/
structure FS where
  listing : String → Option (List FSEntry)

/-- Does an entry trip the component exclusion of `server.py` lines
    28-30?  The check runs over `file_path.parts`, which includes the
    root's own components because `rglob` yields root-joined paths. -/
def entryExcluded (rootParts : List String) (e : FSEntry) : Bool :=
  (rootParts ++ e.relParts).any excludedPart

/-- The body of the `rglob` loop for one extension (`server.py` lines
    26-42): keep entries whose leaf name ends with the extension, drop
    excluded ones, drop entries whose read raises, truncate content to
    2000 characters. -/
def scanEntries (rootParts : List String) (entries : List FSEntry)
    (ext : String) : List FileRecord :=
  entries.filterMap fun e =>
    if strEndsWith (e.relParts.getLastD "") ext then
      if entryExcluded rootParts e then none
      else
        match e.readResult with
        | .ok content =>
            some { path := joinParts e.relParts
                   full_path := joinParts (rootParts ++ e.relParts)
                   content := content.take 2000
                   size := content.length
                   extension := ext }
        | .error _ => none
    else none

/-- `scan_code_files(repo_path, extensions)` (`server.py` lines 17-44):
    loop over the extensions, `rglob` each pattern, filter and read. -/
def scan_code_files (fs : FS) (repo_path : String)
    (extensions : List String) : List FileRecord :=
  match fs.listing repo_path with
  | none => []
  | some entries =>
      extensions.flatMap fun ext =>
        scanEntries (pyPathParts repo_path) entries ext

/-- The same filesystem with every hidden/denylisted candidate removed;
    used to state that such files never contribute anything. -/
def removeExcluded (fs : FS) : FS :=
  ⟨fun root =>
    (fs.listing root).map fun es =>
      es.filter fun e => !entryExcluded (pyPathParts root) e⟩

/-! ### Clusterer (`simple_semantic_clustering`, `server.py` lines 46-94) -/

/-- The fallback of `server.py` lines 81-88: first path component other
    than `"."`, `".."`, `"src"`, capitalised; else `"Other"`. -/
def fallbackKey (parts : List String) : String :=
  match parts.find? (fun p => !(p == "." || p == ".." || p == "src")) with
  | some p => pyCapitalize p
  | none => "Other"

/-- The if/elif chain of `server.py` lines 61-88, as a function of the
    record's relative path alone. -/
def clusterKey (path : String) : String :=
  let lower := pyLower path
  let parts := pyPathParts path
  if strContainsSub lower "component" || parts.contains "components" then
    "UI Components"
  else if strContainsSub lower "hook" || parts.contains "hooks" then
    "React Hooks"
  else if strContainsSub lower "service" || parts.contains "services" then
    "Services & APIs"
  else if strContainsSub lower "util" || parts.contains "utils"
      || strContainsSub lower "helper" then
    "Utilities & Helpers"
  else if strContainsSub lower "type" || parts.contains "types"
      || strContainsSub lower "interface" then
    "Type Definitions"
  else if strContainsSub lower "test" || strEndsWith path ".test.ts"
      || strEndsWith path ".test.tsx" then
    "Tests"
  else if strContainsSub lower "config" || strContainsSub lower "setup" then
    "Configuration"
  else if ["auth", "login", "session"].any parts.contains then
    "Authentication"
  else if ["db", "database", "model", "models"].any parts.contains then
    "Database & Models"
  else if ["api", "route", "routes", "endpoint"].any parts.contains then
    "API Routes"
  else fallbackKey parts

/-- A Python dict of lists in insertion order: association list whose
    keys appear at most once, new keys appended at the end. -/
abbrev ClusterMap := List (String × List FileRecord)

/-- `clusters.setdefault`-style insertion of `server.py` lines 90-92:
    append to an existing key's list, else add the key at the end. -/
def addToCluster (cs : ClusterMap) (k : String) (f : FileRecord) : ClusterMap :=
  match cs with
  | [] => [(k, [f])]
  | (k', fs) :: rest =>
      if k' = k then (k', fs ++ [f]) :: rest
      else (k', fs) :: addToCluster rest k f

/-- `simple_semantic_clustering(files)` (`server.py` lines 46-94). -/
def simple_semantic_clustering (files : List FileRecord) : ClusterMap :=
  files.foldl (fun cs f => addToCluster cs (clusterKey f.path) f) []

/-- Lookup of one cluster's sequence (empty when the name is absent). -/
def clusterOf : ClusterMap → String → List FileRecord
  | [], _ => []
  | (n, fs) :: rest, k => if n = k then fs else clusterOf rest k

/-- The cluster-name column of the map. -/
def clusterKeys (cs : ClusterMap) : List String := cs.map Prod.fst

/-! ### The documented predicate table (spec §4.2, rules 1-11)

The design document states the clustering contract as an ordered list of
(predicate, label) pairs with first-match-wins semantics and a fallback.
`specRules`/`specFirstMatchLabel` transcribe that table so the chained
implementation can be proved equal to it. -/

/-- The ordered predicate table of spec §4.2, rules 1-10.  Each predicate
    receives the lower-cased path, the original path and the component
    list, exactly the data the table's columns mention. -/
def specRules : List ((String → String → List String → Bool) × String) :=
  [ (fun lower _ parts =>
      strContainsSub lower "component" || parts.contains "components",
     "UI Components"),
    (fun lower _ parts =>
      strContainsSub lower "hook" || parts.contains "hooks",
     "React Hooks"),
    (fun lower _ parts =>
      strContainsSub lower "service" || parts.contains "services",
     "Services & APIs"),
    (fun lower _ parts =>
      strContainsSub lower "util" || parts.contains "utils"
        || strContainsSub lower "helper",
     "Utilities & Helpers"),
    (fun lower _ parts =>
      strContainsSub lower "type" || parts.contains "types"
        || strContainsSub lower "interface",
     "Type Definitions"),
    (fun lower path _ =>
      strContainsSub lower "test" || strEndsWith path ".test.ts"
        || strEndsWith path ".test.tsx",
     "Tests"),
    (fun lower _ _ =>
      strContainsSub lower "config" || strContainsSub lower "setup",
     "Configuration"),
    (fun _ _ parts => ["auth", "login", "session"].any parts.contains,
     "Authentication"),
    (fun _ _ parts => ["db", "database", "model", "models"].any parts.contains,
     "Database & Models"),
    (fun _ _ parts => ["api", "route", "routes", "endpoint"].any parts.contains,
     "API Routes") ]

/-- First-match evaluation of the documented table, rule 11 as fallback. -/
def specFirstMatchLabel (path : String) : String :=
  match specRules.find? (fun r => r.1 (pyLower path) path (pyPathParts path)) with
  | some r => r.2
  | none => fallbackKey (pyPathParts path)

/-! ### Presenter (`server.py` lines 168-179 and 199-211) -/

/-- The per-cluster block of the structured summary (`server.py` lines
    172-176). -/
structure ClusterSummary where
  file_count : Nat
  files : List String
  sample_file : Option String
deriving DecidableEq

/-- The structured result of `index_repository` (`server.py` lines
    168-179). -/
structure IndexResult where
  total_files : Nat
  total_clusters : Nat
  clusters : List (String × ClusterSummary)
deriving DecidableEq

/-- `index_repository`'s summary construction (`server.py` lines
    168-179): totals, first 10 paths per cluster, first path as sample. -/
def summarize (files : List FileRecord) (clusters : ClusterMap) : IndexResult :=
  { total_files := files.length
    total_clusters := clusters.length
    clusters := clusters.map fun nc =>
      (nc.1,
       { file_count := nc.2.length
         files := (nc.2.take 10).map FileRecord.path
         sample_file := nc.2.head?.map FileRecord.path }) }

/-- The comparison `sorted(clusters.items(), key=lambda x: len(x[1]),
    reverse=True)` sorts by: `a` may precede `b` when `b`'s list is no
    longer than `a`'s. -/
def byCountDesc (a b : String × List FileRecord) : Prop :=
  b.2.length ≤ a.2.length

instance : DecidableRel byCountDesc := fun a b =>
  Nat.decLe b.2.length a.2.length

instance : IsTotal (String × List FileRecord) byCountDesc :=
  ⟨fun a b => Nat.le_total b.2.length a.2.length⟩

instance : IsTrans (String × List FileRecord) byCountDesc :=
  ⟨fun _ _ _ hab hbc => Nat.le_trans hbc hab⟩

/-- Python's `sorted(..., key=len, reverse=True)` is a stable descending
    sort; `List.insertionSort` with the non-strict relation `byCountDesc`
    is stable too, hence extensionally the same function. -/
def sortClustersByCount (cs : ClusterMap) : ClusterMap :=
  cs.insertionSort byCountDesc

/-- Closed form of one overview section (`server.py` lines 205-211):
    heading with the file count, at most five sample paths, and the
    `... and N more` trailer when more than five files exist. -/
def sectionString (nc : String × List FileRecord) : String :=
  "## " ++ nc.1 ++ " (" ++ toString nc.2.length ++ " files)\nFiles:\n"
    ++ String.join ((nc.2.take 5).map fun f => "- " ++ f.path ++ "\n")
    ++ (if 5 < nc.2.length then
          "- ... and " ++ toString (nc.2.length - 5) ++ " more\n"
        else "")
    ++ "\n"

/-- The formatted overview of `get_cluster_overview` (`server.py` lines
    199-211), as the code builds it: a header, then a loop over the
    clusters sorted by descending file count appending each section. -/
def overviewText (files : List FileRecord) (clusters : ClusterMap) : String :=
  (sortClustersByCount clusters).foldl
    (fun acc nc =>
      let acc := acc ++ "## " ++ nc.1 ++ " (" ++ toString nc.2.length
        ++ " files)\nFiles:\n"
      let acc := (nc.2.take 5).foldl (fun a f => a ++ "- " ++ f.path ++ "\n") acc
      let acc :=
        if 5 < nc.2.length then
          acc ++ "- ... and " ++ toString (nc.2.length - 5) ++ " more\n"
        else acc
      acc ++ "\n")
    ("# Semantic Code Architecture\n\n**Total Files**: "
      ++ toString files.length ++ "\n**Conceptual Areas**: "
      ++ toString clusters.length ++ "\n\n")

/-! ### Python values and the raising sites of the dispatch -/

/-- The JSON-decoded Python values the protocol passes around.  Python
    dicts (from `json.loads`) have pairwise-distinct keys. -/
inductive PyVal where
  | none
  | bool (b : Bool)
  | int (n : Int)
  | str (s : String)
  | list (xs : List PyVal)
  | dict (kvs : List (String × PyVal))

/-- Python's type name, as it appears in `AttributeError` messages. -/
def pyTypeName : PyVal → String
  | .none => "NoneType"
  | .bool _ => "bool"
  | .int _ => "int"
  | .str _ => "str"
  | .list _ => "list"
  | .dict _ => "dict"

/-- `dict.get(key, default)` on a genuine dict. -/
def pyDictGetD (kvs : List (String × PyVal)) (k : String) (d : PyVal) : PyVal :=
  match kvs.find? (fun kv => kv.1 == k) with
  | some kv => kv.2
  | Option.none => d

/-- The message of the `AttributeError` Python raises when `.get` is
    called on a value that is not a dict. -/
def pyNoGetMsg (v : PyVal) : String :=
  "'" ++ pyTypeName v ++ "' object has no attribute 'get'"

/-- `value.get(key, default)`: succeeds on dicts, raises `AttributeError`
    on anything else.  This is the raising site inside the dispatch's
    `try` block. -/
def pyGet (v : PyVal) (k : String) (d : PyVal) : Except String PyVal :=
  match v with
  | .dict kvs => .ok (pyDictGetD kvs k d)
  | other => .error (pyNoGetMsg other)

/-- Python `==` between an arbitrary value and a string literal: true
    only for an equal string. -/
def pyEqStr (v : PyVal) (s : String) : Bool :=
  match v with
  | .str t => t == s
  | _ => false

mutual

/-- `str(v)` as an f-string interpolates it: strings verbatim, scalars
    by their Python rendering, containers via `repr` of their elements
    (string escaping inside `repr` is not modelled; no claim exercises
    it). -/
def pyFormat : PyVal → String
  | .str s => s
  | .int n => toString n
  | .bool b => if b then "True" else "False"
  | .none => "None"
  | .list xs => "[" ++ String.intercalate ", " (pyReprList xs) ++ "]"
  | .dict kvs => "\x7b" ++ String.intercalate ", " (pyReprPairs kvs) ++ "\x7d"

/-- `repr(v)`: like `str` but strings are quoted. -/
def pyRepr : PyVal → String
  | .str s => "'" ++ s ++ "'"
  | .int n => toString n
  | .bool b => if b then "True" else "False"
  | .none => "None"
  | .list xs => "[" ++ String.intercalate ", " (pyReprList xs) ++ "]"
  | .dict kvs => "\x7b" ++ String.intercalate ", " (pyReprPairs kvs) ++ "\x7d"

def pyReprList : List PyVal → List String
  | [] => []
  | v :: vs => pyRepr v :: pyReprList vs

def pyReprPairs : List (String × PyVal) → List String
  | [] => []
  | (k, v) :: kvs => ("'" ++ k ++ "': " ++ pyRepr v) :: pyReprPairs kvs

end

/-- `Path(value)` accepts only strings here; anything else raises a
    `TypeError` (message abbreviated). -/
def asPathStr : PyVal → Except String String
  | .str s => .ok s
  | v => .error ("argument should be a str or an os.PathLike object, not "
      ++ pyTypeName v)

/-! ### RequestRouter (`handle_request`, `server.py` lines 96-245) -/

/-- The advertised input schema of one tool (`server.py` lines 128-137,
    142-151): property names and the required list. -/
structure ToolSchema where
  name : String
  description : String
  properties : List String
  required : List String
deriving DecidableEq

/-- The static tool table of `tools/list` (`server.py` lines 124-153). -/
def toolDefinitions : List ToolSchema :=
  [ { name := "index_repository"
      description := "Create a semantic index of a code repository (100% local, no API keys needed)"
      properties := ["path"]
      required := ["path"] },
    { name := "get_cluster_overview"
      description := "Get a semantic overview of the codebase architecture"
      properties := ["path"]
      required := ["path"] } ]

/-- The fixed `initialize` result (`server.py` lines 104-117). -/
structure InitializeInfo where
  protocolVersion : String
  serverName : String
  serverVersion : String
deriving DecidableEq

def initializeInfo : InitializeInfo :=
  { protocolVersion := "0.1.0"
    serverName := "semantic-navigator"
    serverVersion := "0.1.0" }

/-- The `result` payload of a success envelope.  `index_repository`'s
    payload is the structured summary (the code serialises it with
    `json.dumps`; serialisation is modelled as carrying the structure). -/
inductive Payload where
  | initInfo (info : InitializeInfo)
  | tools (ts : List ToolSchema)
  | text (s : String)
  | indexJson (r : IndexResult)

/-- Success or error body of a response envelope. -/
inductive RespBody where
  | result (p : Payload)
  | err (code : Int) (message : String)

/-- A response envelope: the echoed id plus a result or an error. -/
structure Response where
  id : PyVal
  body : RespBody

/-- The shared unknown-method return (`server.py` lines 227-234), also
    reached by `tools/call` with an unrecognised tool name because the
    tool-name chain has no `else` and falls through. -/
def methodNotFound (request_id method : PyVal) : Response :=
  ⟨request_id, .err (-32601) ("Method not found: " ++ pyFormat method)⟩

/-- The body of `handle_request`'s `try` block (`server.py` lines
    102-234): an `Except.error` is an uncaught Python exception flying
    towards the `except` clause. -/
def dispatchInner (fs : FS) (method params request_id : PyVal) :
    Except String Response :=
  if pyEqStr method "initialize" then
    .ok ⟨request_id, .result (.initInfo initializeInfo)⟩
  else if pyEqStr method "tools/list" then
    .ok ⟨request_id, .result (.tools toolDefinitions)⟩
  else if pyEqStr method "tools/call" then
    match pyGet params "name" .none with
    | .error e => .error e
    | .ok tool_name =>
      match pyGet params "arguments" (.dict []) with
      | .error e => .error e
      | .ok tool_args =>
        if pyEqStr tool_name "index_repository" then
          match pyGet tool_args "path" (.str ".") with
          | .error e => .error e
          | .ok pathVal =>
            match asPathStr pathVal with
            | .error e => .error e
            | .ok repo_path =>
              let files := scan_code_files fs repo_path defaultExtensions
              let clusters := simple_semantic_clustering files
              .ok ⟨request_id, .result (.indexJson (summarize files clusters))⟩
        else if pyEqStr tool_name "get_cluster_overview" then
          match pyGet tool_args "path" (.str ".") with
          | .error e => .error e
          | .ok pathVal =>
            match asPathStr pathVal with
            | .error e => .error e
            | .ok repo_path =>
              let files := scan_code_files fs repo_path defaultExtensions
              let clusters := simple_semantic_clustering files
              .ok ⟨request_id, .result (.text (overviewText files clusters))⟩
        else
          .ok (methodNotFound request_id method)
  else
    .ok (methodNotFound request_id method)

/-- `handle_request(request)` (`server.py` lines 96-245).  The three
    `.get` calls on the request itself run before the `try` block, so
    their exceptions propagate to the caller; everything else is caught
    and converted into the internal-error envelope. -/
def handle_request (fs : FS) (request : PyVal) : Except String Response :=
  match pyGet request "method" .none with
  | .error e => .error e
  | .ok method =>
    match pyGet request "params" (.dict []) with
    | .error e => .error e
    | .ok params =>
      match pyGet request "id" .none with
      | .error e => .error e
      | .ok request_id =>
        match dispatchInner fs method params request_id with
        | .ok resp => .ok resp
        | .error e =>
            .ok ⟨request_id, .err (-32603) ("Internal error: " ++ e)⟩

/-- One line of standard input as `main` sees it: either malformed JSON
    or a decoded value. -/
inductive InputLine where
  | malformed (raw : String)
  | parsed (v : PyVal)

/-- The serving loop of `main` (`server.py` lines 247-260): malformed
    lines are logged and skipped, handler-level exceptions are logged and
    skipped, every produced response is emitted; processing always moves
    on to the next line. -/
def serverLoop (fs : FS) (lines : List InputLine) : List Response :=
  lines.filterMap fun l =>
    match l with
    | .malformed _ => Option.none
    | .parsed req =>
        match handle_request fs req with
        | .ok resp => some resp
        | .error _ => Option.none

/-! ### Lemmas about the clustering accumulator -/

theorem clusterKeys_cons (n : String) (fs : List FileRecord) (rest : ClusterMap) :
    clusterKeys ((n, fs) :: rest) = n :: clusterKeys rest := rfl

theorem clusterOf_addToCluster (cs : ClusterMap) (k q : String) (f : FileRecord) :
    clusterOf (addToCluster cs k f) q =
      if q = k then clusterOf cs q ++ [f] else clusterOf cs q := by
  induction cs with
  | nil =>
      by_cases h : q = k
      · subst h; simp [addToCluster, clusterOf]
      · have h' : ¬k = q := fun hc => h hc.symm
        simp [addToCluster, clusterOf, h, h']
  | cons a rest ih =>
      obtain ⟨n, fs⟩ := a
      by_cases h1 : n = k
      · subst h1
        by_cases h2 : q = n
        · subst h2; simp [addToCluster, clusterOf]
        · have h2' : ¬n = q := fun hc => h2 hc.symm
          simp [addToCluster, clusterOf, h2, h2']
      · by_cases h2 : n = q
        · subst h2; simp [addToCluster, clusterOf, h1]
        · simp [addToCluster, clusterOf, h1, h2, ih]

theorem clusterKeys_addToCluster (cs : ClusterMap) (k : String) (f : FileRecord) :
    clusterKeys (addToCluster cs k f) =
      if k ∈ clusterKeys cs then clusterKeys cs else clusterKeys cs ++ [k] := by
  induction cs with
  | nil => simp [addToCluster, clusterKeys]
  | cons a rest ih =>
      obtain ⟨n, fs⟩ := a
      by_cases h : n = k
      · subst h; simp [addToCluster, clusterKeys_cons]
      · have h' : ¬k = n := fun hc => h hc.symm
        simp only [addToCluster, if_neg h, clusterKeys_cons, ih, List.mem_cons]
        by_cases hm : k ∈ clusterKeys rest
        · simp [hm, h']
        · simp [hm, h']

theorem clusterKeys_nodup_addToCluster (cs : ClusterMap) (k : String)
    (f : FileRecord) (h : (clusterKeys cs).Nodup) :
    (clusterKeys (addToCluster cs k f)).Nodup := by
  rw [clusterKeys_addToCluster]
  by_cases hm : k ∈ clusterKeys cs
  · simpa [hm] using h
  · simp only [hm, if_false, List.nodup_append]
    exact ⟨h, List.nodup_singleton k,
      fun a ha hb => hm ((List.mem_singleton.mp hb) ▸ ha)⟩

theorem clusterOf_foldl (files : List FileRecord) (acc : ClusterMap) (q : String) :
    clusterOf (files.foldl (fun cs f => addToCluster cs (clusterKey f.path) f) acc) q
      = clusterOf acc q ++ files.filter (fun f => clusterKey f.path == q) := by
  induction files generalizing acc with
  | nil => simp
  | cons f rest ih =>
      rw [List.foldl_cons, ih, clusterOf_addToCluster]
      by_cases h : clusterKey f.path = q
      · simp [List.filter_cons, h, List.append_assoc]
      · have h' : ¬q = clusterKey f.path := fun hc => h hc.symm
        simp [List.filter_cons, h, h']

theorem clusterKeys_nodup_foldl (files : List FileRecord) (acc : ClusterMap)
    (h : (clusterKeys acc).Nodup) :
    (clusterKeys (files.foldl (fun cs f => addToCluster cs (clusterKey f.path) f) acc)).Nodup := by
  induction files generalizing acc with
  | nil => exact h
  | cons f rest ih =>
      rw [List.foldl_cons]
      exact ih _ (clusterKeys_nodup_addToCluster _ _ _ h)

/-- The central clustering identity: the sequence stored under any name
    is exactly the input subsequence of the records whose path maps to
    that name. -/
theorem clusterOf_clustering (files : List FileRecord) (q : String) :
    clusterOf (simple_semantic_clustering files) q
      = files.filter (fun f => clusterKey f.path == q) := by
  have := clusterOf_foldl files [] q
  simpa [simple_semantic_clustering, clusterOf] using this

theorem clustering_keys_nodup (files : List FileRecord) :
    (clusterKeys (simple_semantic_clustering files)).Nodup :=
  clusterKeys_nodup_foldl files [] (by simp [clusterKeys])

/-- The chained conditionals of the implementation compute exactly the
    first-match evaluation of the documented ordered predicate table. -/
theorem clusterKey_eq_specFirstMatchLabel (path : String) :
    clusterKey path = specFirstMatchLabel path := by
  unfold clusterKey specFirstMatchLabel specRules
  simp only [List.find?]
  generalize (strContainsSub (pyLower path) "component"
      || (pyPathParts path).contains "components") = b1
  generalize (strContainsSub (pyLower path) "hook"
      || (pyPathParts path).contains "hooks") = b2
  generalize (strContainsSub (pyLower path) "service"
      || (pyPathParts path).contains "services") = b3
  generalize (strContainsSub (pyLower path) "util"
      || (pyPathParts path).contains "utils"
      || strContainsSub (pyLower path) "helper") = b4
  generalize (strContainsSub (pyLower path) "type"
      || (pyPathParts path).contains "types"
      || strContainsSub (pyLower path) "interface") = b5
  generalize (strContainsSub (pyLower path) "test"
      || strEndsWith path ".test.ts" || strEndsWith path ".test.tsx") = b6
  generalize (strContainsSub (pyLower path) "config"
      || strContainsSub (pyLower path) "setup") = b7
  generalize (["auth", "login", "session"].any (pyPathParts path).contains) = b8
  generalize (["db", "database", "model", "models"].any (pyPathParts path).contains) = b9
  generalize (["api", "route", "routes", "endpoint"].any (pyPathParts path).contains) = b10
  cases b1 <;> cases b2 <;> cases b3 <;> cases b4 <;> cases b5 <;>
    cases b6 <;> cases b7 <;> cases b8 <;> cases b9 <;> cases b10 <;> rfl

/-! ### Lemmas about the scanner -/

/-- Filtering the hidden/denylisted candidates out of a listing does not
    change what one extension pass produces: those entries were skipped
    anyway. -/
theorem scanEntries_filter_excluded (rp : List String) (entries : List FSEntry)
    (ext : String) :
    scanEntries rp (entries.filter fun e => !entryExcluded rp e) ext
      = scanEntries rp entries ext := by
  unfold scanEntries
  rw [List.filterMap_filter]
  congr 1
  funext e
  by_cases h : entryExcluded rp e
  · by_cases hext : strEndsWith (e.relParts.getLastD "") ext <;> simp [h, hext]
  · simp [h]

/-- One extension pass yields nothing when the root's own components
    already trip the exclusion test. -/
theorem scanEntries_eq_nil_of_bad_root (rp : List String) (entries : List FSEntry)
    (ext : String) (p : String) (hp : p ∈ rp) (hbad : excludedPart p = true) :
    scanEntries rp entries ext = [] := by
  rw [scanEntries, List.filterMap_eq_nil_iff]
  intro e _
  have hex : entryExcluded rp e = true := by
    rw [entryExcluded, List.any_eq_true]
    exact ⟨p, List.mem_append_left _ hp, hbad⟩
  by_cases hext : strEndsWith (e.relParts.getLastD "") ext <;> simp [hext, hex]

/-! ### Lemmas about string folding for the overview renderer -/

theorem foldl_append_join (l : List String) (acc : String) :
    l.foldl (· ++ ·) acc = acc ++ String.join l := by
  induction l generalizing acc with
  | nil => simp [String.join, String.append_empty]
  | cons s rest ih =>
      have hj : String.join (s :: rest) = s ++ String.join rest := by
        show List.foldl (· ++ ·) "" (s :: rest) = _
        rw [List.foldl_cons, ih, String.empty_append]
      rw [List.foldl_cons, ih, hj, String.append_assoc]

theorem foldl_append_map_join {α : Type} (l : List α) (g : α → String) (acc : String) :
    l.foldl (fun a x => a ++ g x) acc = acc ++ String.join (l.map g) := by
  rw [← List.foldl_map g (· ++ ·) l acc, foldl_append_join]

/-- One iteration of the overview loop appends exactly one closed-form
    section to the accumulator. -/
theorem overview_step (acc : String) (nc : String × List FileRecord) :
    (let acc1 := acc ++ "## " ++ nc.1 ++ " (" ++ toString nc.2.length
        ++ " files)\nFiles:\n"
     let acc2 := (nc.2.take 5).foldl (fun a f => a ++ "- " ++ f.path ++ "\n") acc1
     let acc3 :=
       if 5 < nc.2.length then
         acc2 ++ "- ... and " ++ toString (nc.2.length - 5) ++ " more\n"
       else acc2
     acc3 ++ "\n") = acc ++ sectionString nc := by
  have hfold : ∀ (a : String),
      (nc.2.take 5).foldl (fun a f => a ++ "- " ++ f.path ++ "\n") a
        = a ++ String.join ((nc.2.take 5).map fun f => "- " ++ f.path ++ "\n") := by
    intro a
    have : (fun (a : String) (f : FileRecord) => a ++ "- " ++ f.path ++ "\n")
        = fun (a : String) (f : FileRecord) => a ++ ("- " ++ f.path ++ "\n") := by
      funext a f
      simp [String.append_assoc]
    rw [this, foldl_append_map_join]
  simp only [sectionString, hfold]
  by_cases h : 5 < nc.2.length <;>
    simp [h, String.append_assoc, String.append_empty]

/-- The rendered overview decomposes into the header followed by the
    concatenation of the per-cluster sections in sorted order. -/
theorem overviewText_eq (files : List FileRecord) (clusters : ClusterMap) :
    overviewText files clusters
      = "# Semantic Code Architecture\n\n**Total Files**: "
          ++ toString files.length ++ "\n**Conceptual Areas**: "
          ++ toString clusters.length ++ "\n\n"
        ++ String.join ((sortClustersByCount clusters).map sectionString) := by
  rw [overviewText]
  have hbody : (fun (acc : String) (nc : String × List FileRecord) =>
      let acc := acc ++ "## " ++ nc.1 ++ " (" ++ toString nc.2.length
        ++ " files)\nFiles:\n"
      let acc := (nc.2.take 5).foldl (fun a f => a ++ "- " ++ f.path ++ "\n") acc
      let acc :=
        if 5 < nc.2.length then
          acc ++ "- ... and " ++ toString (nc.2.length - 5) ++ " more\n"
        else acc
      acc ++ "\n") = fun acc nc => acc ++ sectionString nc := by
    funext acc nc
    exact overview_step acc nc
  rw [hbody, foldl_append_map_join]

/-! ### Concrete fixtures used by the claim witnesses -/

def wRecComponents : FileRecord :=
  ⟨"src/components/Button.tsx", "repo/src/components/Button.tsx", "export {}", 9, ".tsx"⟩

def wRecHooks : FileRecord :=
  ⟨"src/hooks/useAuth.ts", "repo/src/hooks/useAuth.ts", "export {}", 9, ".ts"⟩

def wFsEmpty : FS := ⟨fun _ => Option.none⟩

def wFsBadRoot : FS :=
  ⟨fun r => if r = "work/node_modules/lib" then
      some [⟨["a.py"], .ok "print(1)"⟩, ⟨["src", "b.ts"], .ok "let x = 1"⟩]
    else Option.none⟩

def wFsMixed : FS :=
  ⟨fun r => if r = "repo" then
      some [⟨["src", "ok.py"], .ok "x = 1"⟩,
            ⟨["node_modules", "bad.py"], .ok "y = 2"⟩,
            ⟨[".git", "hooky.py"], .ok "z = 3"⟩]
    else Option.none⟩

def wSummary : ClusterSummary :=
  ⟨1, ["src/components/Button.tsx"], some "src/components/Button.tsx"⟩

/-! ### Claim theorems -/

/-- C1: the cluster label of a record depends only on that record's
relative path: landing in cluster `k` forces `k = clusterKey path`, the
pure function `clusterKey` coincides with the first matching predicate
of the documented ordered rule table (rules 1-10, then the fallback),
and the label agrees across any two input sequences containing the
record, whatever their ordering or other members. -/
theorem cluster_label_depends_only_on_path
    (files files' : List FileRecord) (k k' : String) (r : FileRecord)
    (h : r ∈ clusterOf (simple_semantic_clustering files) k)
    (h' : r ∈ clusterOf (simple_semantic_clustering files') k') :
    k = clusterKey r.path
    ∧ clusterKey r.path = specFirstMatchLabel r.path
    ∧ k = k' := by
  rw [clusterOf_clustering] at h h'
  have hk : clusterKey r.path = k := eq_of_beq (List.mem_filter.mp h).2
  have hk' : clusterKey r.path = k' := eq_of_beq (List.mem_filter.mp h').2
  exact ⟨hk.symm, clusterKey_eq_specFirstMatchLabel r.path, hk.symm.trans hk'⟩

theorem cluster_label_depends_only_on_path_witness :
    "UI Components" = clusterKey wRecComponents.path
    ∧ clusterKey wRecComponents.path = specFirstMatchLabel wRecComponents.path
    ∧ "UI Components" = "UI Components" :=
  cluster_label_depends_only_on_path
    [wRecComponents] [wRecHooks, wRecComponents]
    "UI Components" "UI Components" wRecComponents (by decide) (by decide)

/-- C2: the clustering partitions its input: cluster names are pairwise
distinct, the sequence stored under any name `q` is exactly the
subsequence of input records whose key is `q` (so every input record
appears in exactly the one cluster named by its key), and each cluster
preserves the relative input order, being a sublist of the input. -/
theorem clustering_partitions_preserving_order
    (files : List FileRecord) (q : String) :
    (clusterKeys (simple_semantic_clustering files)).Nodup
    ∧ clusterOf (simple_semantic_clustering files) q
        = files.filter (fun f => clusterKey f.path == q)
    ∧ (∀ f ∈ files, f ∈ clusterOf (simple_semantic_clustering files) (clusterKey f.path))
    ∧ (∀ f ∈ clusterOf (simple_semantic_clustering files) q, clusterKey f.path = q)
    ∧ (clusterOf (simple_semantic_clustering files) q).Sublist files := by
  refine ⟨clustering_keys_nodup files, clusterOf_clustering files q, ?_, ?_, ?_⟩
  · intro f hf
    rw [clusterOf_clustering]
    exact List.mem_filter.mpr ⟨hf, by simp⟩
  · intro f hf
    rw [clusterOf_clustering] at hf
    exact eq_of_beq (List.mem_filter.mp hf).2
  · rw [clusterOf_clustering]
    exact List.filter_sublist files

theorem clustering_partitions_preserving_order_witness :
    clusterOf (simple_semantic_clustering [wRecComponents, wRecHooks]) "React Hooks"
      = [wRecComponents, wRecHooks].filter (fun f => clusterKey f.path == "React Hooks") :=
  (clustering_partitions_preserving_order [wRecComponents, wRecHooks] "React Hooks").2.1

/-- C3: files with a hidden (dot-prefixed) or denylisted path component
contribute nothing: deleting every such candidate from the filesystem
leaves the scan output, every cluster, and the rendered overview
unchanged, however many such files exist. -/
theorem excluded_files_never_appear (fs : FS) (root : String)
    (exts : List String) (q : String) :
    scan_code_files fs root exts = scan_code_files (removeExcluded fs) root exts
    ∧ clusterOf (simple_semantic_clustering (scan_code_files fs root exts)) q
        = clusterOf (simple_semantic_clustering
            (scan_code_files (removeExcluded fs) root exts)) q
    ∧ overviewText (scan_code_files fs root exts)
          (simple_semantic_clustering (scan_code_files fs root exts))
        = overviewText (scan_code_files (removeExcluded fs) root exts)
          (simple_semantic_clustering
            (scan_code_files (removeExcluded fs) root exts)) := by
  have hscan : scan_code_files fs root exts
      = scan_code_files (removeExcluded fs) root exts := by
    unfold scan_code_files removeExcluded
    cases h : fs.listing root with
    | none => simp [h]
    | some entries => simp [h, scanEntries_filter_excluded]
  exact ⟨hscan, by rw [hscan], by rw [hscan]⟩

theorem excluded_files_never_appear_witness :
    scan_code_files wFsMixed "repo" defaultExtensions
      = scan_code_files (removeExcluded wFsMixed) "repo" defaultExtensions :=
  (excluded_files_never_appear wFsMixed "repo" defaultExtensions "Other").1

/-- C10: the exclusion test runs over every component of the joined
path, the root's own components included: a root path containing a
hidden or denylisted component makes the scan return the empty list,
whatever files the tree below holds. -/
theorem bad_root_component_empty_scan (fs : FS) (root : String)
    (exts : List String) (p : String)
    (hp : p ∈ pyPathParts root) (hbad : excludedPart p = true) :
    scan_code_files fs root exts = [] := by
  unfold scan_code_files
  cases h : fs.listing root with
  | none => rfl
  | some entries =>
      rw [List.flatMap_eq_nil_iff]
      intro ext _
      exact scanEntries_eq_nil_of_bad_root _ entries ext p hp hbad

theorem bad_root_component_empty_scan_witness :
    scan_code_files wFsBadRoot "work/node_modules/lib" defaultExtensions = [] :=
  bad_root_component_empty_scan wFsBadRoot "work/node_modules/lib"
    defaultExtensions "node_modules" (by decide) (by decide)

/-- C5: the rendered overview is the header followed by one section per
cluster, the clusters appearing in descending order of file count; each
section lists at most 5 sample paths, and a cluster with more than 5
files ends its section with a `... and N more` line where `N` is the
cluster's file count minus 5. -/
theorem overview_sections_contract (files : List FileRecord) (clusters : ClusterMap) :
    (sortClustersByCount clusters).Perm clusters
    ∧ (sortClustersByCount clusters).Pairwise (fun a b => b.2.length ≤ a.2.length)
    ∧ overviewText files clusters
        = "# Semantic Code Architecture\n\n**Total Files**: "
            ++ toString files.length ++ "\n**Conceptual Areas**: "
            ++ toString clusters.length ++ "\n\n"
          ++ String.join ((sortClustersByCount clusters).map sectionString)
    ∧ ∀ nc ∈ sortClustersByCount clusters,
        (nc.2.take 5).length ≤ 5
        ∧ (5 < nc.2.length →
            sectionString nc
              = "## " ++ nc.1 ++ " (" ++ toString nc.2.length ++ " files)\nFiles:\n"
                ++ String.join ((nc.2.take 5).map fun f => "- " ++ f.path ++ "\n")
                ++ "- ... and " ++ toString (nc.2.length - 5) ++ " more\n" ++ "\n") := by
  refine ⟨List.perm_insertionSort byCountDesc clusters,
    List.sorted_insertionSort byCountDesc clusters,
    overviewText_eq files clusters, ?_⟩
  intro nc _
  constructor
  · rw [List.length_take]
    exact min_le_left _ _
  · intro h5
    rw [sectionString, if_pos h5]
    simp [String.append_assoc]

theorem overview_sections_contract_witness :
    (sortClustersByCount (simple_semantic_clustering [wRecComponents, wRecHooks])).Perm
      (simple_semantic_clustering [wRecComponents, wRecHooks]) :=
  (overview_sections_contract [wRecComponents, wRecHooks]
    (simple_semantic_clustering [wRecComponents, wRecHooks])).1

/-- C6: the structured summary reports the total file count, the total
cluster count, and for each listed cluster a `file_count` equal to that
cluster's length, at most 10 sample paths (the first 10, in order), and
the first path as representative; the 10-path truncation holds for
every cluster whatever its size. -/
theorem summarize_truncates_to_ten (files : List FileRecord)
    (n : String) (cs : ClusterSummary)
    (h : (n, cs) ∈ (summarize files (simple_semantic_clustering files)).clusters) :
    (summarize files (simple_semantic_clustering files)).total_files = files.length
    ∧ (summarize files (simple_semantic_clustering files)).total_clusters
        = (simple_semantic_clustering files).length
    ∧ ∃ fl, (n, fl) ∈ simple_semantic_clustering files
        ∧ cs.file_count = fl.length
        ∧ cs.files = (fl.take 10).map FileRecord.path
        ∧ cs.files.length ≤ 10
        ∧ cs.sample_file = fl.head?.map FileRecord.path := by
  refine ⟨rfl, rfl, ?_⟩
  simp only [summarize] at h
  obtain ⟨nc, hnc, heq⟩ := List.mem_map.mp h
  obtain ⟨hn, hcs⟩ := Prod.mk.injEq .. ▸ heq
  refine ⟨nc.2, ?_, ?_, ?_, ?_, ?_⟩
  · rw [← hn]; simpa using hnc
  · rw [← hcs]
  · rw [← hcs]
  · rw [← hcs]
    simp only [List.length_map, List.length_take]
    exact min_le_left _ _
  · rw [← hcs]

theorem summarize_truncates_to_ten_witness :
    ∃ fl, ("UI Components", fl) ∈ simple_semantic_clustering [wRecComponents]
      ∧ wSummary.file_count = fl.length
      ∧ wSummary.files = (fl.take 10).map FileRecord.path
      ∧ wSummary.files.length ≤ 10
      ∧ wSummary.sample_file = fl.head?.map FileRecord.path :=
  (summarize_truncates_to_ten [wRecComponents] "UI Components" wSummary (by decide)).2.2

/-- C4: a root path whose listing is unavailable (missing directory or
not a directory) degrades silently: the scan yields no records and
`get_cluster_overview` answers with a well-formed success envelope whose
text reports 0 total files and contains no cluster section — never with
an error envelope. -/
theorem overview_on_missing_root (fs : FS) (root : String) (i : PyVal)
    (h : fs.listing root = Option.none) :
    scan_code_files fs root defaultExtensions = []
    ∧ handle_request fs (.dict [("method", .str "tools/call"),
        ("params", .dict [("name", .str "get_cluster_overview"),
                          ("arguments", .dict [("path", .str root)])]),
        ("id", i)])
      = .ok ⟨i, .result (.text
          "# Semantic Code Architecture\n\n**Total Files**: 0\n**Conceptual Areas**: 0\n\n")⟩ := by
  have hscan : scan_code_files fs root defaultExtensions = [] := by
    unfold scan_code_files; rw [h]
  refine ⟨hscan, ?_⟩
  have hreq : handle_request fs (.dict [("method", .str "tools/call"),
      ("params", .dict [("name", .str "get_cluster_overview"),
                        ("arguments", .dict [("path", .str root)])]),
      ("id", i)])
      = .ok ⟨i, .result (.text (overviewText
          (scan_code_files fs root defaultExtensions)
          (simple_semantic_clustering
            (scan_code_files fs root defaultExtensions))))⟩ := rfl
  rw [hreq, hscan]
  rfl

theorem overview_on_missing_root_witness :
    scan_code_files wFsEmpty "no/such/dir" defaultExtensions = []
    ∧ handle_request wFsEmpty (.dict [("method", .str "tools/call"),
        ("params", .dict [("name", .str "get_cluster_overview"),
                          ("arguments", .dict [("path", .str "no/such/dir")])]),
        ("id", PyVal.int 1)])
      = .ok ⟨PyVal.int 1, .result (.text
          "# Semantic Code Architecture\n\n**Total Files**: 0\n**Conceptual Areas**: 0\n\n")⟩ :=
  overview_on_missing_root wFsEmpty "no/such/dir" (PyVal.int 1) rfl

/-- C7: an unrecognised method name yields an error envelope with the
fixed method-not-found code `-32601` and a message containing the
offending method name; a `tools/call` naming an unknown tool falls
through to the same `-32601` envelope; and `-32601` is distinct from the
internal-error code `-32603`. -/
theorem unknown_method_and_tool_error (fs : FS) (i params args : PyVal)
    (m tool : String)
    (hm : m ∉ ["initialize", "tools/list", "tools/call"])
    (ht : tool ∉ ["index_repository", "get_cluster_overview"]) :
    handle_request fs (.dict [("method", .str m), ("params", params), ("id", i)])
      = .ok ⟨i, .err (-32601) ("Method not found: " ++ m)⟩
    ∧ (∃ pre post, "Method not found: " ++ m = pre ++ m ++ post)
    ∧ handle_request fs (.dict [("method", .str "tools/call"),
         ("params", .dict [("name", .str tool), ("arguments", args)]), ("id", i)])
       = .ok ⟨i, .err (-32601) "Method not found: tools/call"⟩
    ∧ (-32601 : Int) ≠ -32603 := by
  have n1 : m ≠ "initialize" := by intro hc; exact hm (by simp [hc])
  have n2 : m ≠ "tools/list" := by intro hc; exact hm (by simp [hc])
  have n3 : m ≠ "tools/call" := by intro hc; exact hm (by simp [hc])
  have e1 : (m == "initialize") = false := beq_eq_false_iff_ne.mpr n1
  have e2 : (m == "tools/list") = false := beq_eq_false_iff_ne.mpr n2
  have e3 : (m == "tools/call") = false := beq_eq_false_iff_ne.mpr n3
  have t1 : tool ≠ "index_repository" := by intro hc; exact ht (by simp [hc])
  have t2 : tool ≠ "get_cluster_overview" := by intro hc; exact ht (by simp [hc])
  have f1 : (tool == "index_repository") = false := beq_eq_false_iff_ne.mpr t1
  have f2 : (tool == "get_cluster_overview") = false := beq_eq_false_iff_ne.mpr t2
  refine ⟨?_, ⟨"Method not found: ", "", (String.append_empty _).symm⟩, ?_, by decide⟩
  · simp [handle_request, dispatchInner, pyGet, pyDictGetD, List.find?, pyEqStr,
      e1, e2, e3, methodNotFound, pyFormat]
  · simp [handle_request, dispatchInner, pyGet, pyDictGetD, List.find?, pyEqStr,
      f1, f2, methodNotFound, pyFormat]

theorem unknown_method_and_tool_error_witness :
    handle_request wFsEmpty (.dict [("method", .str "ping"),
        ("params", PyVal.none), ("id", PyVal.int 2)])
      = .ok ⟨PyVal.int 2, .err (-32601) ("Method not found: " ++ "ping")⟩ :=
  (unknown_method_and_tool_error wFsEmpty (PyVal.int 2) PyVal.none PyVal.none
    "ping" "drop_tables" (by decide) (by decide)).1

/-- C8: an exception escaping the dispatch body is caught at the router
boundary and becomes an error envelope with the fixed internal-error
code `-32603` whose message contains the exception's message, and the
serving loop emits that envelope and keeps processing the remaining
input lines. -/
theorem internal_error_caught_loop_continues (fs : FS)
    (kvs : List (String × PyVal)) (e : String)
    (h : dispatchInner fs (pyDictGetD kvs "method" .none)
          (pyDictGetD kvs "params" (.dict [])) (pyDictGetD kvs "id" .none)
        = .error e) :
    handle_request fs (.dict kvs)
      = .ok ⟨pyDictGetD kvs "id" .none, .err (-32603) ("Internal error: " ++ e)⟩
    ∧ (∃ pre post, "Internal error: " ++ e = pre ++ e ++ post)
    ∧ ∀ rest, serverLoop fs (.parsed (.dict kvs) :: rest)
        = ⟨pyDictGetD kvs "id" .none, .err (-32603) ("Internal error: " ++ e)⟩
            :: serverLoop fs rest := by
  have hreq : handle_request fs (.dict kvs)
      = .ok ⟨pyDictGetD kvs "id" .none,
             .err (-32603) ("Internal error: " ++ e)⟩ := by
    show (match dispatchInner fs (pyDictGetD kvs "method" .none)
            (pyDictGetD kvs "params" (.dict [])) (pyDictGetD kvs "id" .none) with
          | .ok resp => Except.ok resp
          | .error e => .ok ⟨pyDictGetD kvs "id" .none,
              .err (-32603) ("Internal error: " ++ e)⟩)
        = Except.ok ⟨pyDictGetD kvs "id" .none,
            .err (-32603) ("Internal error: " ++ e)⟩
    rw [h]
  refine ⟨hreq, ⟨"Internal error: ", "", (String.append_empty _).symm⟩, ?_⟩
  intro rest
  simp [serverLoop, List.filterMap_cons, hreq]

def wBadKvs : List (String × PyVal) :=
  [("method", PyVal.str "tools/call"), ("params", PyVal.str "boom"),
   ("id", PyVal.int 7)]

theorem internal_error_caught_loop_continues_witness :
    handle_request wFsEmpty (.dict wBadKvs)
      = .ok ⟨pyDictGetD wBadKvs "id" .none,
          .err (-32603)
            ("Internal error: " ++ "'str' object has no attribute 'get'")⟩ :=
  (internal_error_caught_loop_continues wFsEmpty wBadKvs
    "'str' object has no attribute 'get'" rfl).1

/-- C9: a `tools/call` of either tool whose arguments omit `path` does
not fail: the path silently defaults to `"."` and the scan proceeds,
even though both advertised input schemas declare `path` required. -/
theorem omitted_path_defaults (fs : FS) (i : PyVal)
    (kvs : List (String × PyVal))
    (h : kvs.find? (fun kv => kv.1 == "path") = Option.none) :
    handle_request fs (.dict [("method", .str "tools/call"),
       ("params", .dict [("name", .str "index_repository"),
                         ("arguments", .dict kvs)]),
       ("id", i)])
      = .ok ⟨i, .result (.indexJson (summarize
          (scan_code_files fs "." defaultExtensions)
          (simple_semantic_clustering (scan_code_files fs "." defaultExtensions))))⟩
    ∧ handle_request fs (.dict [("method", .str "tools/call"),
       ("params", .dict [("name", .str "get_cluster_overview"),
                         ("arguments", .dict kvs)]),
       ("id", i)])
      = .ok ⟨i, .result (.text (overviewText
          (scan_code_files fs "." defaultExtensions)
          (simple_semantic_clustering (scan_code_files fs "." defaultExtensions))))⟩
    ∧ ∀ t ∈ toolDefinitions, t.required = ["path"] := by
  refine ⟨?_, ?_, by decide⟩ <;>
    simp [handle_request, dispatchInner, pyGet, pyDictGetD, List.find?,
      pyEqStr, asPathStr, h]

theorem omitted_path_defaults_witness :
    handle_request wFsEmpty (.dict [("method", .str "tools/call"),
       ("params", .dict [("name", .str "index_repository"),
                         ("arguments", .dict [("depth", PyVal.int 3)])]),
       ("id", PyVal.int 3)])
      = .ok ⟨PyVal.int 3, .result (.indexJson (summarize
          (scan_code_files wFsEmpty "." defaultExtensions)
          (simple_semantic_clustering
            (scan_code_files wFsEmpty "." defaultExtensions))))⟩ :=
  (omitted_path_defaults wFsEmpty (PyVal.int 3) [("depth", PyVal.int 3)] rfl).1

end SemanticNavigator
